import Mathlib

/-
Verification of the BioSimSpace `Equilibration` protocol class
(src/python/BioSimSpace/Protocol/equilibration.py).

The class is a validated configuration record: a constructor plus guarded
property setters that clamp or replace out-of-range inputs with defaults,
emitting warnings through Python's `warnings.warn`. We embed the class as a
Lean structure; each Python property setter becomes a function from the
record and the new value to the updated record paired with the list of
warning messages it emits. Python floats are embedded as exact rationals.
Python values that can be passed where the code inspects their type (the
backbone-restraint flag, and the inputs of the numeric setters when we study
exception behaviour) are embedded as the `PyVal` type; Python exceptions
(TypeError from ordering a string against a number, AttributeError from
reading an attribute that was never assigned) are embedded as `Except`.
-/

namespace BioSimSpace

/-- An embedded Python runtime value: a number, a bool, a string, or `None`.
Only the shapes the equilibration code can actually observe are included. -/
inductive PyVal where
  | num (q : ℚ)
  | boolV (b : Bool)
  | str (s : String)
  | noneV
  deriving DecidableEq, Repr

/-- Python exceptions that the equilibration code can raise: `TypeError`
from comparing a non-numeric value against a number, and `AttributeError`
from reading `_temperature_end` when it was never assigned. -/
inductive PyErr where
  | typeError
  | attributeError
  deriving DecidableEq, Repr

/-- Modelled from the spec: the base `Protocol` class (not under src/) stores
a protocol kind; the spec names only the kind "equilibration" as relevant
here (`ProtocolType.EQUILIBRATION` in the source import). -/
inductive ProtocolType where
  | EQUILIBRATION
  deriving DecidableEq, Repr

/-- The state of an `Equilibration` object: the base-protocol fields
(`protocol_type`, `gas_phase`, modelled from the spec as plain stores) and
the attributes assigned by the class itself. `temperature_end` is an
`Option` because the constructor leaves `_temperature_end` unassigned when
called with `temperature_end = None`. -/
structure Equilibration where
  protocol_type : ProtocolType
  gas_phase : Bool
  timestep : ℚ
  runtime : ℚ
  temperature_start : ℚ
  temperature_end : Option ℚ
  is_const_temp : Bool
  is_restrained : Bool
  deriving DecidableEq, Repr

/-- Warning message of the timestep setter. -/
def timestepWarning : String := "The time step must be positive. Using default (2 fs)."

/-- Warning message of the runtime setter. -/
def runtimeWarning : String := "The running time must be positive. Using default (0.2 ns)."

/-- Warning message of the starting-temperature setter. -/
def temperatureStartWarning : String := "Starting temperature must be positive. Using default (300 K)."

/-- Warning message of the final-temperature setter. -/
def temperatureEndWarning : String := "Final temperature must be positive. Using default (300 K)."

/-- Warning message emitted by the constructor when the validated start and
end temperatures coincide. -/
def sameTemperatureWarning : String := "Start and end temperatures are the same!"

/-- Warning message of the backbone-restraint setter. -/
def restraintWarning : String := "Non-boolean backbone restraint flag. Defaulting to no restraint!"

/-- The test `temperature == approx(0)` from the source. `pytest.approx(0)`
with default tolerances (`rel = 1e-6`, `abs = 1e-12`) compares within
`max(rel * |expected|, abs) = 1e-12` of the expected value 0. -/
def approxZero (t : ℚ) : Prop := |t| ≤ 1 / 1000000000000

instance : DecidablePred approxZero :=
  fun t => inferInstanceAs (Decidable (|t| ≤ 1 / 1000000000000))

/-- The `timestep` property setter: a non-positive value is replaced by the
default 2 fs with a warning, anything else is stored as given. -/
def timestep_set (p : Equilibration) (timestep : ℚ) : Equilibration × List String :=
  if timestep ≤ 0 then
    ({ p with timestep := 2 }, [timestepWarning])
  else
    ({ p with timestep := timestep }, [])

/-- The `runtime` property setter: a non-positive value is replaced by the
default 0.2 ns with a warning, anything else is stored as given. -/
def runtime_set (p : Equilibration) (runtime : ℚ) : Equilibration × List String :=
  if runtime ≤ 0 then
    ({ p with runtime := 1 / 5 }, [runtimeWarning])
  else
    ({ p with runtime := runtime }, [])

/-- The `temperature_start` property setter: a negative value is replaced by
the default 300 K with a warning; a value within the `approx(0)` tolerance
of zero is silently replaced by 0.01 K; anything else is stored as given. -/
def temperature_start_set (p : Equilibration) (temperature : ℚ) :
    Equilibration × List String :=
  if temperature < 0 then
    ({ p with temperature_start := 300 }, [temperatureStartWarning])
  else if approxZero temperature then
    ({ p with temperature_start := 1 / 100 }, [])
  else
    ({ p with temperature_start := temperature }, [])

/-- The `temperature_end` property setter: same validation as
`temperature_start_set`, writing the `temperature_end` attribute. -/
def temperature_end_set (p : Equilibration) (temperature : ℚ) :
    Equilibration × List String :=
  if temperature < 0 then
    ({ p with temperature_end := some 300 }, [temperatureEndWarning])
  else if approxZero temperature then
    ({ p with temperature_end := some (1 / 100) }, [])
  else
    ({ p with temperature_end := some temperature }, [])

/-- The `is_restrained` property setter: `type(x) is bool` stores the flag
as given; any other runtime type stores `false` with a warning. -/
def is_restrained_set (p : Equilibration) (restrain_backbone : PyVal) :
    Equilibration × List String :=
  match restrain_backbone with
  | PyVal.boolV b => ({ p with is_restrained := b }, [])
  | _ => ({ p with is_restrained := false }, [restraintWarning])

/-- The `timestep` property getter. -/
def timestep_get (p : Equilibration) : ℚ := p.timestep

/-- The `runtime` property getter. -/
def runtime_get (p : Equilibration) : ℚ := p.runtime

/-- The `temperature_start` property getter. -/
def temperature_start_get (p : Equilibration) : ℚ := p.temperature_start

/-- The `temperature_end` property getter: reading `self._temperature_end`
raises `AttributeError` when the attribute was never assigned, which happens
exactly when the object was constructed with `temperature_end = None` and
the setter was never called afterwards. -/
def temperature_end_get (p : Equilibration) : Except PyErr ℚ :=
  match p.temperature_end with
  | some t => Except.ok t
  | none => Except.error PyErr.attributeError

/-- The `is_restrained` property getter. -/
def is_restrained_get (p : Equilibration) : Bool := p.is_restrained

/-- The `isConstantTemp` query: returns the stored `_is_const_temp` flag. -/
def isConstantTemp (p : Equilibration) : Bool := p.is_const_temp

/-- The numeric value a `PyVal` carries for Python's ordering comparisons:
numbers compare as themselves, bools compare as the integers 0/1 (Python's
`bool` is an `int` subclass); strings and `None` do not compare against
numbers and make `<=`, `<` raise `TypeError`. -/
def toNumber : PyVal → Option ℚ
  | PyVal.num q => some q
  | PyVal.boolV b => some (if b then 1 else 0)
  | PyVal.str _ => none
  | PyVal.noneV => none

/-- The `timestep` setter applied to an arbitrary Python value: the guard
`timestep <= 0` raises `TypeError` when the input is not numeric. -/
def timestep_set_val (p : Equilibration) (v : PyVal) :
    Except PyErr (Equilibration × List String) :=
  match toNumber v with
  | some q => Except.ok (timestep_set p q)
  | none => Except.error PyErr.typeError

/-- The `runtime` setter applied to an arbitrary Python value. -/
def runtime_set_val (p : Equilibration) (v : PyVal) :
    Except PyErr (Equilibration × List String) :=
  match toNumber v with
  | some q => Except.ok (runtime_set p q)
  | none => Except.error PyErr.typeError

/-- The `temperature_start` setter applied to an arbitrary Python value. -/
def temperature_start_set_val (p : Equilibration) (v : PyVal) :
    Except PyErr (Equilibration × List String) :=
  match toNumber v with
  | some q => Except.ok (temperature_start_set p q)
  | none => Except.error PyErr.typeError

/-- The `temperature_end` setter applied to an arbitrary Python value. -/
def temperature_end_set_val (p : Equilibration) (v : PyVal) :
    Except PyErr (Equilibration × List String) :=
  match toNumber v with
  | some q => Except.ok (temperature_end_set p q)
  | none => Except.error PyErr.typeError

/-- The constructor `Equilibration.__init__`, with the base-class call
modelled from the spec as storing the protocol kind and gas-phase flag.
It assigns `timestep`, `runtime`, `temperature_start` through their
setters, then handles `temperature_end`: when supplied, it runs the
`temperature_end` setter, initializes `_is_const_temp` to `False`, and if
the stored start and end temperatures are equal warns and flips the flag to
`True`; when absent, it sets `_is_const_temp` to `True` and leaves
`_temperature_end` unassigned. Finally it assigns the backbone restraint
through its setter. Returns the object and all warnings in emission order. -/
def mkEquilibration (timestep runtime temperature_start : ℚ)
    (temperature_end : Option ℚ) (restrain_backbone : PyVal) (gas_phase : Bool) :
    Equilibration × List String :=
  let p0 : Equilibration :=
    { protocol_type := ProtocolType.EQUILIBRATION
      gas_phase := gas_phase
      timestep := 0
      runtime := 0
      temperature_start := 0
      temperature_end := none
      is_const_temp := false
      is_restrained := false }
  let r1 := timestep_set p0 timestep
  let r2 := runtime_set r1.1 runtime
  let r3 := temperature_start_set r2.1 temperature_start
  let r4 :=
    match temperature_end with
    | some te =>
        let r := temperature_end_set r3.1 te
        if some r.1.temperature_start = r.1.temperature_end then
          ({ r.1 with is_const_temp := true }, r.2 ++ [sameTemperatureWarning])
        else
          ({ r.1 with is_const_temp := false }, r.2)
    | none => ({ r3.1 with is_const_temp := true }, [])
  let r5 := is_restrained_set r4.1 restrain_backbone
  (r5.1, r1.2 ++ r2.2 ++ r3.2 ++ r4.2 ++ r5.2)

/-- A single call to one of the five property setters, used to quantify over
arbitrary sequences of mutations after construction. -/
inductive SetterOp where
  | setTimestep (t : ℚ)
  | setRuntime (r : ℚ)
  | setTemperatureStart (s : ℚ)
  | setTemperatureEnd (e : ℚ)
  | setIsRestrained (v : PyVal)
  deriving DecidableEq, Repr

/-- Apply one setter call, keeping the resulting state. -/
def applyOp (p : Equilibration) (op : SetterOp) : Equilibration :=
  match op with
  | SetterOp.setTimestep t => (timestep_set p t).1
  | SetterOp.setRuntime r => (runtime_set p r).1
  | SetterOp.setTemperatureStart s => (temperature_start_set p s).1
  | SetterOp.setTemperatureEnd e => (temperature_end_set p e).1
  | SetterOp.setIsRestrained v => (is_restrained_set p v).1

/-- Apply a sequence of setter calls in order. -/
def applyOps (p : Equilibration) (ops : List SetterOp) : Equilibration :=
  List.foldl applyOp p ops

/-- The value the temperature setters actually store for a given input:
negative inputs become 300, inputs within the `approx(0)` tolerance become
0.01, anything else is kept. Both temperature setters store exactly this. -/
def clampTemperature (temperature : ℚ) : ℚ :=
  if temperature < 0 then 300
  else if approxZero temperature then 1 / 100
  else temperature

/-- Whether an `Except` result is a normal (non-raising) outcome. -/
def exceptOk {ε α : Type} : Except ε α → Bool
  | Except.ok _ => true
  | Except.error _ => false

/-- A sample well-formed state, used as the receiver in concrete witnesses:
the state produced by the all-default constructor call. -/
def egBase : Equilibration :=
  { protocol_type := ProtocolType.EQUILIBRATION
    gas_phase := false
    timestep := 2
    runtime := 1 / 5
    temperature_start := 300
    temperature_end := none
    is_const_temp := true
    is_restrained := false }

/-- The positivity invariant of the stored numeric fields (the amended form
of the spec's field invariants). -/
def Inv (p : Equilibration) : Prop :=
  0 < p.timestep ∧ 0 < p.runtime ∧ 0 < p.temperature_start ∧
    ∀ te, p.temperature_end = some te → 0 < te

/-! Characterization lemmas: each setter and the constructor rewritten to an
explicit record-and-warnings form, from which the claims follow. -/

theorem timestep_set_eq (p : Equilibration) (t : ℚ) :
    timestep_set p t =
      ({ p with timestep := if t ≤ 0 then 2 else t },
        if t ≤ 0 then [timestepWarning] else []) := by
  unfold timestep_set
  split_ifs <;> rfl

theorem runtime_set_eq (p : Equilibration) (r : ℚ) :
    runtime_set p r =
      ({ p with runtime := if r ≤ 0 then 1 / 5 else r },
        if r ≤ 0 then [runtimeWarning] else []) := by
  unfold runtime_set
  split_ifs <;> rfl

theorem temperature_start_set_eq (p : Equilibration) (s : ℚ) :
    temperature_start_set p s =
      ({ p with temperature_start := clampTemperature s },
        if s < 0 then [temperatureStartWarning] else []) := by
  unfold temperature_start_set clampTemperature
  split_ifs <;> rfl

theorem temperature_end_set_eq (p : Equilibration) (s : ℚ) :
    temperature_end_set p s =
      ({ p with temperature_end := some (clampTemperature s) },
        if s < 0 then [temperatureEndWarning] else []) := by
  unfold temperature_end_set clampTemperature
  split_ifs <;> rfl

theorem is_restrained_set_eq (p : Equilibration) (v : PyVal) :
    is_restrained_set p v =
      ({ p with is_restrained := match v with | PyVal.boolV b => b | _ => false },
        match v with | PyVal.boolV _ => [] | _ => [restraintWarning]) := by
  cases v <;> rfl

theorem clampTemperature_pos (s : ℚ) : 0 < clampTemperature s := by
  unfold clampTemperature
  split_ifs with h1 h2
  · norm_num
  · norm_num
  · have hs : 0 ≤ s := not_lt.mp h1
    have h : ¬ (|s| ≤ 1 / 1000000000000) := h2
    rw [abs_of_nonneg hs] at h
    have := not_le.mp h
    linarith

theorem mkEquilibration_eq (t r s : ℚ) (e : Option ℚ) (rb : PyVal) (g : Bool) :
    mkEquilibration t r s e rb g =
      ({ protocol_type := ProtocolType.EQUILIBRATION
         gas_phase := g
         timestep := if t ≤ 0 then 2 else t
         runtime := if r ≤ 0 then 1 / 5 else r
         temperature_start := clampTemperature s
         temperature_end := Option.map clampTemperature e
         is_const_temp :=
           match e with
           | none => true
           | some x => decide (clampTemperature s = clampTemperature x)
         is_restrained := match rb with | PyVal.boolV b => b | _ => false },
       (if t ≤ 0 then [timestepWarning] else []) ++
         (if r ≤ 0 then [runtimeWarning] else []) ++
         (if s < 0 then [temperatureStartWarning] else []) ++
         (match e with
          | none => []
          | some x =>
              (if x < 0 then [temperatureEndWarning] else []) ++
                (if clampTemperature s = clampTemperature x
                  then [sameTemperatureWarning] else [])) ++
         (match rb with | PyVal.boolV _ => [] | _ => [restraintWarning])) := by
  cases e with
  | none =>
      cases rb <;>
        simp [mkEquilibration, timestep_set_eq, runtime_set_eq, temperature_start_set_eq,
          is_restrained_set_eq]
  | some x =>
      by_cases hc : clampTemperature s = clampTemperature x <;>
        cases rb <;>
          simp [mkEquilibration, timestep_set_eq, runtime_set_eq, temperature_start_set_eq,
            temperature_end_set_eq, is_restrained_set_eq, hc]

theorem if_pos_timestep (t : ℚ) : 0 < if t ≤ 0 then (2 : ℚ) else t := by
  split_ifs with h
  · norm_num
  · exact not_le.mp h

theorem if_pos_runtime (r : ℚ) : 0 < if r ≤ 0 then (1 : ℚ) / 5 else r := by
  split_ifs with h
  · norm_num
  · exact not_le.mp h

theorem applyOp_is_const_temp (p : Equilibration) (op : SetterOp) :
    (applyOp p op).is_const_temp = p.is_const_temp := by
  cases op <;>
    simp [applyOp, timestep_set_eq, runtime_set_eq, temperature_start_set_eq,
      temperature_end_set_eq, is_restrained_set_eq]

theorem applyOps_is_const_temp (p : Equilibration) (ops : List SetterOp) :
    (applyOps p ops).is_const_temp = p.is_const_temp := by
  induction ops generalizing p with
  | nil => rfl
  | cons op ops ih =>
      have h : applyOps p (op :: ops) = applyOps (applyOp p op) ops := rfl
      rw [h, ih, applyOp_is_const_temp]

theorem applyOp_inv (p : Equilibration) (op : SetterOp) (h : Inv p) :
    Inv (applyOp p op) := by
  obtain ⟨h1, h2, h3, h4⟩ := h
  cases op with
  | setTimestep t =>
      exact ⟨by simpa [applyOp, timestep_set_eq] using if_pos_timestep t,
        by simpa [applyOp, timestep_set_eq] using h2,
        by simpa [applyOp, timestep_set_eq] using h3,
        by simpa [applyOp, timestep_set_eq] using h4⟩
  | setRuntime r =>
      exact ⟨by simpa [applyOp, runtime_set_eq] using h1,
        by simpa [applyOp, runtime_set_eq] using if_pos_runtime r,
        by simpa [applyOp, runtime_set_eq] using h3,
        by simpa [applyOp, runtime_set_eq] using h4⟩
  | setTemperatureStart s =>
      exact ⟨by simpa [applyOp, temperature_start_set_eq] using h1,
        by simpa [applyOp, temperature_start_set_eq] using h2,
        by simpa [applyOp, temperature_start_set_eq] using clampTemperature_pos s,
        by simpa [applyOp, temperature_start_set_eq] using h4⟩
  | setTemperatureEnd e =>
      refine ⟨by simpa [applyOp, temperature_end_set_eq] using h1,
        by simpa [applyOp, temperature_end_set_eq] using h2,
        by simpa [applyOp, temperature_end_set_eq] using h3, ?_⟩
      intro te hte
      simp [applyOp, temperature_end_set_eq] at hte
      exact hte ▸ clampTemperature_pos e
  | setIsRestrained v =>
      exact ⟨by simpa [applyOp, is_restrained_set_eq] using h1,
        by simpa [applyOp, is_restrained_set_eq] using h2,
        by simpa [applyOp, is_restrained_set_eq] using h3,
        by simpa [applyOp, is_restrained_set_eq] using h4⟩

theorem applyOps_inv (p : Equilibration) (ops : List SetterOp) (h : Inv p) :
    Inv (applyOps p ops) := by
  induction ops generalizing p with
  | nil => exact h
  | cons op ops ih => exact ih _ (applyOp_inv _ _ h)

theorem mkEquilibration_inv (t r s : ℚ) (e : Option ℚ) (rb : PyVal) (g : Bool) :
    Inv (mkEquilibration t r s e rb g).1 := by
  rw [mkEquilibration_eq]
  refine ⟨if_pos_timestep t, if_pos_runtime r, clampTemperature_pos s, ?_⟩
  intro te hte
  cases e with
  | none => simp at hte
  | some x =>
      simp at hte
      exact hte ▸ clampTemperature_pos x

theorem mk_some_clamp_eq (t r s x : ℚ) (rb : PyVal) (g : Bool)
    (h : clampTemperature s = clampTemperature x) :
    isConstantTemp (mkEquilibration t r s (some x) rb g).1 = true ∧
    sameTemperatureWarning ∈ (mkEquilibration t r s (some x) rb g).2 := by
  rw [mkEquilibration_eq]
  constructor
  · simp [isConstantTemp, h]
  · simp [h]

/-! Claim theorems. -/

/-- C1, counterexample: operations do raise. Reading `temperatureEnd` on the
object built by the all-default constructor call (`temperatureEnd` absent)
raises `AttributeError`, and passing the non-numeric string "abc" to the
`timestep` setter raises `TypeError` from the `timestep <= 0` comparison. -/
theorem operations_raise_counterexample :
    temperature_end_get
        (mkEquilibration 2 (1 / 5) 300 Option.none (PyVal.boolV false) false).1 =
      Except.error PyErr.attributeError ∧
    timestep_set_val egBase (PyVal.str ("abc")) = Except.error PyErr.typeError := by
  constructor
  · rw [mkEquilibration_eq]
    rfl
  · rfl

/-- C1, amended: every operation completes normally on its supported domain —
the numeric setters succeed exactly when the input is numeric (a bool counts,
a string or `None` raises `TypeError`), and the `temperatureEnd` getter
succeeds exactly when an end temperature has been stored (otherwise it
raises `AttributeError`); within those domains invalid values are recovered
with a default plus a non-fatal warning, never an exception. -/
theorem operations_domain (p : Equilibration) (v : PyVal) :
    exceptOk (timestep_set_val p v) = (toNumber v).isSome ∧
    exceptOk (runtime_set_val p v) = (toNumber v).isSome ∧
    exceptOk (temperature_start_set_val p v) = (toNumber v).isSome ∧
    exceptOk (temperature_end_set_val p v) = (toNumber v).isSome ∧
    exceptOk (temperature_end_get p) = p.temperature_end.isSome := by
  refine ⟨?_, ?_, ?_, ?_, ?_⟩
  · cases v <;> rfl
  · cases v <;> rfl
  · cases v <;> rfl
  · cases v <;> rfl
  · cases h : p.temperature_end <;> simp [temperature_end_get, exceptOk, h]

/-- C2: `isConstantTemp` returns exactly the flag computed at construction —
no sequence of setter calls after construction changes it — and the
`temperature_end` setter modifies only the stored end temperature, leaving
every other field (the constant-temperature flag included) untouched. -/
theorem isConstantTemp_frame (t r s : ℚ) (e : Option ℚ) (rb : PyVal) (g : Bool)
    (ops : List SetterOp) :
    isConstantTemp (applyOps (mkEquilibration t r s e rb g).1 ops) =
      isConstantTemp (mkEquilibration t r s e rb g).1 ∧
    ∀ (p : Equilibration) (x : ℚ),
      (temperature_end_set p x).1.timestep = p.timestep ∧
      (temperature_end_set p x).1.runtime = p.runtime ∧
      (temperature_end_set p x).1.temperature_start = p.temperature_start ∧
      (temperature_end_set p x).1.is_const_temp = p.is_const_temp ∧
      (temperature_end_set p x).1.is_restrained = p.is_restrained ∧
      (temperature_end_set p x).1.gas_phase = p.gas_phase ∧
      (temperature_end_set p x).1.protocol_type = p.protocol_type := by
  constructor
  · exact applyOps_is_const_temp _ _
  · intro p x
    refine ⟨?_, ?_, ?_, ?_, ?_, ?_, ?_⟩ <;> simp [temperature_end_set_eq]

/-- C3, counterexample: the claimed invariant `temperatureStart >= 0.01`
fails. Constructing with `temperature_start = 0.001` (all other arguments
default) stores 0.001, which is below 0.01. -/
theorem invariant_tempstart_counterexample :
    temperature_start_get
        (mkEquilibration 2 (1 / 5) (1 / 1000) Option.none (PyVal.boolV false) false).1 =
      1 / 1000 ∧
    (1 : ℚ) / 1000 < 1 / 100 := by
  constructor
  · rw [mkEquilibration_eq]
    show clampTemperature (1 / 1000) = 1 / 1000
    unfold clampTemperature
    norm_num [approxZero, abs_le]
  · norm_num

/-- C3, amended: after construction and after any sequence of setter calls,
the fields satisfy `timestep > 0`, `runtime > 0`, `temperatureStart > 0`,
and `temperatureEnd > 0` whenever `temperatureEnd` is present (the stored
start temperature can be any positive value above the 1e-12 `approx(0)`
tolerance, e.g. 0.001, so `>= 0.01` does not hold). -/
theorem invariant_positive (t r s : ℚ) (e : Option ℚ) (rb : PyVal) (g : Bool)
    (ops : List SetterOp) :
    Inv (applyOps (mkEquilibration t r s e rb g).1 ops) :=
  applyOps_inv _ _ (mkEquilibration_inv t r s e rb g)

/-- C3, witness: the amended invariant at a concrete construction followed
by a concrete (invalid) setter call. -/
theorem invariant_positive_witness :
    Inv (applyOps (mkEquilibration 2 (1 / 5) 300 Option.none (PyVal.boolV false) false).1
      [SetterOp.setTimestep (-1)]) :=
  invariant_positive 2 (1 / 5) 300 Option.none (PyVal.boolV false) false
    [SetterOp.setTimestep (-1)]

/-- C4, counterexample: the input 1e-13 is strictly positive, yet the
`temperature_start` setter stores 0.01 rather than the input, because the
input is within the `approx(0)` tolerance of zero. -/
theorem temperature_start_counterexample :
    (0 : ℚ) < 1 / 10000000000000 ∧
    (temperature_start_set egBase (1 / 10000000000000)).1.temperature_start = 1 / 100 ∧
    (1 : ℚ) / 100 ≠ 1 / 10000000000000 := by
  refine ⟨by norm_num, ?_, by norm_num⟩
  rw [temperature_start_set_eq]
  show clampTemperature (1 / 10000000000000) = 1 / 100
  unfold clampTemperature
  norm_num [approxZero, abs_le]

/-- C4, amended: for the `temperature_start` setter, `s < 0` stores 300 with
a warning; `0 <= s <= 1e-12` (the `approx(0)` tolerance, including exactly 0)
stores 0.01 with no warning; and `s > 1e-12` is stored unchanged with no
warning. -/
theorem temperature_start_set_cases (p : Equilibration) (s : ℚ) :
    (s < 0 →
      (temperature_start_set p s).1.temperature_start = 300 ∧
        (temperature_start_set p s).2 = [temperatureStartWarning]) ∧
    (0 ≤ s → s ≤ 1 / 1000000000000 →
      (temperature_start_set p s).1.temperature_start = 1 / 100 ∧
        (temperature_start_set p s).2 = []) ∧
    (1 / 1000000000000 < s →
      (temperature_start_set p s).1.temperature_start = s ∧
        (temperature_start_set p s).2 = []) := by
  refine ⟨?_, ?_, ?_⟩
  · intro h
    simp [temperature_start_set_eq, clampTemperature, h]
  · intro h0 h1
    have hnl : ¬ s < 0 := not_lt.mpr h0
    have ha : approxZero s := by
      unfold approxZero
      rw [abs_of_nonneg h0]
      exact h1
    simp [temperature_start_set_eq, clampTemperature, hnl, ha]
  · intro h
    have h0 : (0 : ℚ) ≤ s := le_trans (by norm_num) h.le
    have hnl : ¬ s < 0 := not_lt.mpr h0
    have ha : ¬ approxZero s := by
      unfold approxZero
      rw [abs_of_nonneg h0]
      exact not_le.mpr h
    simp [temperature_start_set_eq, clampTemperature, hnl, ha]

/-- C4, witness: the three amended cases at the concrete inputs -1, 0, 7. -/
theorem temperature_start_set_cases_witness :
    ((temperature_start_set egBase (-1)).1.temperature_start = 300 ∧
      (temperature_start_set egBase (-1)).2 = [temperatureStartWarning]) ∧
    ((temperature_start_set egBase 0).1.temperature_start = 1 / 100 ∧
      (temperature_start_set egBase 0).2 = []) ∧
    ((temperature_start_set egBase 7).1.temperature_start = 7 ∧
      (temperature_start_set egBase 7).2 = []) :=
  ⟨(temperature_start_set_cases egBase (-1)).1 (by norm_num),
    (temperature_start_set_cases egBase 0).2.1 (by norm_num) (by norm_num),
    (temperature_start_set_cases egBase 7).2.2 (by norm_num)⟩

/-- C5: constructing with `temperatureEnd` supplied and equal to the raw
`temperatureStart` input yields `isConstantTemp = true`, and the constructor
emits the equal-start-and-end-temperatures warning (both inputs pass through
the same validation, so the stored values coincide). -/
theorem mk_equal_raw_temperatures_const (t r s : ℚ) (rb : PyVal) (g : Bool) :
    isConstantTemp (mkEquilibration t r s (some s) rb g).1 = true ∧
    sameTemperatureWarning ∈ (mkEquilibration t r s (some s) rb g).2 :=
  mk_some_clamp_eq t r s s rb g rfl

/-- C6: constructing with `temperatureEnd = None` yields
`isConstantTemp = true` for every choice of the other arguments, and when the
other arguments are themselves valid (positive timestep and runtime,
non-negative start temperature, boolean restraint flag) the construction
emits no warning at all. -/
theorem mk_none_const_temp (t r s : ℚ) (rb : PyVal) (g : Bool) :
    isConstantTemp (mkEquilibration t r s Option.none rb g).1 = true ∧
    (0 < t → 0 < r → 0 ≤ s → (∃ b, rb = PyVal.boolV b) →
      (mkEquilibration t r s Option.none rb g).2 = []) := by
  constructor
  · simp [mkEquilibration_eq, isConstantTemp]
  · rintro ht hr hs ⟨b, rfl⟩
    rw [mkEquilibration_eq]
    simp [not_le.mpr ht, not_le.mpr hr, not_lt.mpr hs]

/-- C6, witness: the all-default constructor call yields a constant
temperature protocol with no warnings. -/
theorem mk_none_const_temp_witness :
    isConstantTemp (mkEquilibration 2 (1 / 5) 300 Option.none (PyVal.boolV false) false).1 =
      true ∧
    (mkEquilibration 2 (1 / 5) 300 Option.none (PyVal.boolV false) false).2 = [] :=
  ⟨(mk_none_const_temp 2 (1 / 5) 300 (PyVal.boolV false) false).1,
    (mk_none_const_temp 2 (1 / 5) 300 (PyVal.boolV false) false).2
      (by norm_num) (by norm_num) (by norm_num) ⟨false, rfl⟩⟩

/-- C7: the `timestep` setter stores the default 2 and emits exactly the
timestep warning whenever the input is non-positive, and stores a positive
input unchanged with no warning. -/
theorem timestep_set_cases (p : Equilibration) (t : ℚ) :
    (t ≤ 0 →
      (timestep_set p t).1.timestep = 2 ∧ (timestep_set p t).2 = [timestepWarning]) ∧
    (0 < t →
      (timestep_set p t).1.timestep = t ∧ (timestep_set p t).2 = []) := by
  constructor
  · intro h
    simp [timestep_set_eq, h]
  · intro h
    simp [timestep_set_eq, not_le.mpr h]

/-- C7, witness: the two cases at the concrete inputs -1 and 3. -/
theorem timestep_set_cases_witness :
    ((timestep_set egBase (-1)).1.timestep = 2 ∧
      (timestep_set egBase (-1)).2 = [timestepWarning]) ∧
    ((timestep_set egBase 3).1.timestep = 3 ∧ (timestep_set egBase 3).2 = []) :=
  ⟨(timestep_set_cases egBase (-1)).1 (by norm_num),
    (timestep_set_cases egBase 3).2 (by norm_num)⟩

/-- C8: the `runtime` setter stores the default 0.2 and emits exactly the
runtime warning whenever the input is non-positive, and stores a positive
input unchanged with no warning. -/
theorem runtime_set_cases (p : Equilibration) (r : ℚ) :
    (r ≤ 0 →
      (runtime_set p r).1.runtime = 1 / 5 ∧ (runtime_set p r).2 = [runtimeWarning]) ∧
    (0 < r →
      (runtime_set p r).1.runtime = r ∧ (runtime_set p r).2 = []) := by
  constructor
  · intro h
    simp [runtime_set_eq, h]
  · intro h
    simp [runtime_set_eq, not_le.mpr h]

/-- C8, witness: the two cases at the concrete inputs 0 and 3. -/
theorem runtime_set_cases_witness :
    ((runtime_set egBase 0).1.runtime = 1 / 5 ∧
      (runtime_set egBase 0).2 = [runtimeWarning]) ∧
    ((runtime_set egBase 3).1.runtime = 3 ∧ (runtime_set egBase 3).2 = []) :=
  ⟨(runtime_set_cases egBase 0).1 (by norm_num),
    (runtime_set_cases egBase 3).2 (by norm_num)⟩

/-- C9: the `is_restrained` setter stores a boolean input as given with no
warning, and for an input of any other runtime type (a string such as "yes",
a number such as 1, or `None`) stores `false` and emits the restraint
warning. -/
theorem is_restrained_set_cases (p : Equilibration) (v : PyVal) :
    (∀ b, v = PyVal.boolV b →
      (is_restrained_set p v).1.is_restrained = b ∧ (is_restrained_set p v).2 = []) ∧
    ((∀ b, v ≠ PyVal.boolV b) →
      (is_restrained_set p v).1.is_restrained = false ∧
        (is_restrained_set p v).2 = [restraintWarning]) := by
  constructor
  · rintro b rfl
    simp [is_restrained_set]
  · intro h
    cases v with
    | boolV b => exact absurd rfl (h b)
    | num q => simp [is_restrained_set]
    | str s => simp [is_restrained_set]
    | noneV => simp [is_restrained_set]

/-- C9, witness: the string "yes" is stored as `false` with the warning, and
the integer 1 likewise, while the boolean `true` is stored as given. -/
theorem is_restrained_set_cases_witness :
    ((is_restrained_set egBase (PyVal.str ("yes"))).1.is_restrained = false ∧
      (is_restrained_set egBase (PyVal.str ("yes"))).2 = [restraintWarning]) ∧
    ((is_restrained_set egBase (PyVal.num 1)).1.is_restrained = false ∧
      (is_restrained_set egBase (PyVal.num 1)).2 = [restraintWarning]) ∧
    ((is_restrained_set egBase (PyVal.boolV true)).1.is_restrained = true ∧
      (is_restrained_set egBase (PyVal.boolV true)).2 = []) :=
  ⟨(is_restrained_set_cases egBase (PyVal.str ("yes"))).2
      (fun _ h => PyVal.noConfusion h),
    (is_restrained_set_cases egBase (PyVal.num 1)).2
      (fun _ h => PyVal.noConfusion h),
    (is_restrained_set_cases egBase (PyVal.boolV true)).1 true rfl⟩

/-- C10: the constant-temperature decision at construction compares the
post-validation temperatures — whenever the clamped values of the raw start
and end inputs coincide, the constructed object has `isConstantTemp = true`
and the equal-temperatures warning is emitted, even if the raw inputs differ
or are invalid. -/
theorem mk_clamped_equal_const (t r s x : ℚ) (rb : PyVal) (g : Bool)
    (h : clampTemperature s = clampTemperature x) :
    isConstantTemp (mkEquilibration t r s (some x) rb g).1 = true ∧
    sameTemperatureWarning ∈ (mkEquilibration t r s (some x) rb g).2 :=
  mk_some_clamp_eq t r s x rb g h

/-- C10, witness: start -5 and end -3 are different invalid raw inputs, both
clamped to 300, and the construction is reported as constant-temperature
with the equal-temperatures warning. -/
theorem mk_clamped_equal_const_witness :
    isConstantTemp
        (mkEquilibration 2 (1 / 5) (-5) (some (-3)) (PyVal.boolV false) false).1 = true ∧
    sameTemperatureWarning ∈
      (mkEquilibration 2 (1 / 5) (-5) (some (-3)) (PyVal.boolV false) false).2 :=
  mk_clamped_equal_const 2 (1 / 5) (-5) (-3) (PyVal.boolV false) false
    (by norm_num [clampTemperature])

end BioSimSpace
